import Mathlib

/-!
Verification of the command-dispatch-and-undo core.

Shallow embedding of the command/undo/macro/device-state logic of
`src/5-singleton-pattern.ts` (the `RemoteLoaderWithUndo` section of the
repository): the `CeilingFan` multi-state device with its four snapshot
commands, the `Light` binary device with `LightOffCommand`, the
`RemoteLoaderWithUndo` invoker and the `MacroCommand` composite.

Mutable JavaScript objects become immutable Lean structures with explicit
state passing: a method that mutates `this` becomes a function returning the
updated structure.  `console.log` side effects are irrelevant to the fan and
invoker claims and are dropped there; for the `Light`, whose only observable
is the state named in its log line, the embedded structure records that
observable binary state directly.  JavaScript array indexing (reads of
out-of-range indices yield `undefined`, whose method call throws) is embedded
with `Option`: a slot table is a `List (Option c)` and a trigger on a missing
slot returns `none` (the thrown `TypeError`).
-/

/-- Speed constant `CeilingFan.HIGH = 3` from the source. -/
def CeilingFan.HIGH : Nat := 3

/-- Speed constant `CeilingFan.MEDIUM = 2` from the source. -/
def CeilingFan.MEDIUM : Nat := 2

/-- Speed constant `CeilingFan.LOW = 1` from the source. -/
def CeilingFan.LOW : Nat := 1

/-- Speed constant `CeilingFan.OFF = 0` from the source. -/
def CeilingFan.OFF : Nat := 0

/-- The `CeilingFan` device: a location label and a numeric speed
(the source stores the speed as a plain `number`). -/
structure CeilingFan where
  location : String
  speed : Nat
deriving Repr, DecidableEq

/-- Constructor `new CeilingFan(location)`: it sets `speed = CeilingFan.OFF`. -/
def CeilingFan.new (location : String) : CeilingFan :=
  { location := location, speed := CeilingFan.OFF }

/-- Transition `CeilingFan.high()`: sets the speed to `HIGH`. -/
def CeilingFan.high (f : CeilingFan) : CeilingFan :=
  { f with speed := CeilingFan.HIGH }

/-- Transition `CeilingFan.medium()`: sets the speed to `MEDIUM`. -/
def CeilingFan.medium (f : CeilingFan) : CeilingFan :=
  { f with speed := CeilingFan.MEDIUM }

/-- Transition `CeilingFan.low()`: sets the speed to `LOW`. -/
def CeilingFan.low (f : CeilingFan) : CeilingFan :=
  { f with speed := CeilingFan.LOW }

/-- Transition `CeilingFan.off()`: sets the speed to `OFF`. -/
def CeilingFan.off (f : CeilingFan) : CeilingFan :=
  { f with speed := CeilingFan.OFF }

/-- Query `CeilingFan.getSpeed()`. -/
def CeilingFan.getSpeed (f : CeilingFan) : Nat :=
  f.speed

/-- The shared `undo()` body of `CeilingFanMediumCommand`,
`CeilingFanHighCommand`, `CeilingFanLowCommand` and `CeilingFanOffCommand`:
a four-branch `if`/`else if` chain on the stored `prevSpeed`; when no branch
matches, the device is left unchanged (the chain falls through). -/
def fanCommandUndo (prevSpeed : Nat) (f : CeilingFan) : CeilingFan :=
  if prevSpeed = CeilingFan.HIGH then f.high
  else if prevSpeed = CeilingFan.MEDIUM then f.medium
  else if prevSpeed = CeilingFan.LOW then f.low
  else if prevSpeed = CeilingFan.OFF then f.off
  else f

/-- Constructor `new CeilingFanMediumCommand(fan)`: the snapshot
`prevSpeed = ceilingFan.getSpeed()` taken at construction time. -/
def CeilingFanMediumCommand.construct (f : CeilingFan) : Nat :=
  f.getSpeed

/-- Method `CeilingFanMediumCommand.execute()`: first `prevSpeed = getSpeed()`,
then `ceilingFan.medium()`.  Returns (updated fan, updated `prevSpeed`);
the incoming `prevSpeed` is overwritten, so it is not a parameter. -/
def CeilingFanMediumCommand.execute (f : CeilingFan) : CeilingFan × Nat :=
  (f.medium, f.getSpeed)

/-- Constructor snapshot of `new CeilingFanHighCommand(fan)`. -/
def CeilingFanHighCommand.construct (f : CeilingFan) : Nat :=
  f.getSpeed

/-- Method `CeilingFanHighCommand.execute()`: `prevSpeed = getSpeed()`, then `high()`. -/
def CeilingFanHighCommand.execute (f : CeilingFan) : CeilingFan × Nat :=
  (f.high, f.getSpeed)

/-- Constructor snapshot of `new CeilingFanLowCommand(fan)`. -/
def CeilingFanLowCommand.construct (f : CeilingFan) : Nat :=
  f.getSpeed

/-- Method `CeilingFanLowCommand.execute()`: `prevSpeed = getSpeed()`, then `low()`. -/
def CeilingFanLowCommand.execute (f : CeilingFan) : CeilingFan × Nat :=
  (f.low, f.getSpeed)

/-- Constructor snapshot of `new CeilingFanOffCommand(fan)`. -/
def CeilingFanOffCommand.construct (f : CeilingFan) : Nat :=
  f.getSpeed

/-- Method `CeilingFanOffCommand.execute()`: `prevSpeed = getSpeed()`, then `off()`. -/
def CeilingFanOffCommand.execute (f : CeilingFan) : CeilingFan × Nat :=
  (f.off, f.getSpeed)

/-- The speeds the source names: `OFF`, `LOW`, `MEDIUM`, `HIGH`. -/
def ValidSpeed (s : Nat) : Prop :=
  s = CeilingFan.OFF ∨ s = CeilingFan.LOW ∨ s = CeilingFan.MEDIUM ∨ s = CeilingFan.HIGH

instance (s : Nat) : Decidable (ValidSpeed s) := by
  unfold ValidSpeed; infer_instance

/-- C1: Snapshot-restore round trip for the multi-state device: for every
ceiling fan whose speed is one of OFF, LOW, MEDIUM, HIGH, and for each of the
four fan transition commands (high, medium, low, off), running the command's
`execute()` and then its `undo()` leaves the fan's speed exactly as it was
immediately before `execute()` — all 16 (start state, transition) pairs. -/
theorem ceilingFan_snapshot_restore_roundTrip
    (f : CeilingFan) (h : ValidSpeed f.speed) :
    (fanCommandUndo (CeilingFanMediumCommand.execute f).2
        (CeilingFanMediumCommand.execute f).1).speed = f.speed ∧
    (fanCommandUndo (CeilingFanHighCommand.execute f).2
        (CeilingFanHighCommand.execute f).1).speed = f.speed ∧
    (fanCommandUndo (CeilingFanLowCommand.execute f).2
        (CeilingFanLowCommand.execute f).1).speed = f.speed ∧
    (fanCommandUndo (CeilingFanOffCommand.execute f).2
        (CeilingFanOffCommand.execute f).1).speed = f.speed := by
  obtain ⟨l, s⟩ := f
  rcases h with h | h | h | h <;> subst h <;>
    refine ⟨rfl, rfl, rfl, rfl⟩

/-- Witness for C1: a living-room fan at speed `MEDIUM` (2), checked on the
`high` command among the four conjuncts. -/
theorem ceilingFan_snapshot_restore_roundTrip_witness :
    ValidSpeed (CeilingFan.mk "Living Room" 2).speed ∧
    (fanCommandUndo (CeilingFanHighCommand.execute (CeilingFan.mk "Living Room" 2)).2
        (CeilingFanHighCommand.execute (CeilingFan.mk "Living Room" 2)).1).speed =
      (CeilingFan.mk "Living Room" 2).speed :=
  ⟨by decide,
   (ceilingFan_snapshot_restore_roundTrip (CeilingFan.mk "Living Room" 2)
      (by decide)).2.1⟩

/-- C4: Snapshot-at-do invariant: for every multi-state fan command, the
`prevSpeed` field produced by `execute()` is the device state read at the
moment `execute()` is invoked (here the fan `f1` seen at invocation), not the
constructor-time snapshot of the fan `f0` seen at construction; so when the
state changed in between, the execute-time snapshot differs from the
constructor one, and `undo()` restores the state observed at `execute()`. -/
theorem fanCommand_snapshot_at_execute
    (f0 f1 : CeilingFan) (h : ValidSpeed f1.speed) :
    (CeilingFanMediumCommand.execute f1).2 = f1.getSpeed ∧
    (CeilingFanHighCommand.execute f1).2 = f1.getSpeed ∧
    (CeilingFanLowCommand.execute f1).2 = f1.getSpeed ∧
    (CeilingFanOffCommand.execute f1).2 = f1.getSpeed ∧
    (f0.speed ≠ f1.speed →
      (CeilingFanMediumCommand.execute f1).2 ≠ CeilingFanMediumCommand.construct f0) ∧
    (fanCommandUndo (CeilingFanMediumCommand.execute f1).2
        (CeilingFanMediumCommand.execute f1).1).speed = f1.speed ∧
    (fanCommandUndo (CeilingFanHighCommand.execute f1).2
        (CeilingFanHighCommand.execute f1).1).speed = f1.speed ∧
    (fanCommandUndo (CeilingFanLowCommand.execute f1).2
        (CeilingFanLowCommand.execute f1).1).speed = f1.speed ∧
    (fanCommandUndo (CeilingFanOffCommand.execute f1).2
        (CeilingFanOffCommand.execute f1).1).speed = f1.speed := by
  obtain ⟨l, s⟩ := f1
  refine ⟨rfl, rfl, rfl, rfl, fun hne => Ne.symm hne, ?_, ?_, ?_, ?_⟩ <;>
    rcases h with h | h | h | h <;> subst h <;> rfl

/-- Witness for C4: fan at speed `OFF` at construction, at `MEDIUM` when
`execute()` runs. -/
theorem fanCommand_snapshot_at_execute_witness :
    ValidSpeed (CeilingFan.mk "Bedroom" 2).speed ∧
    (CeilingFanMediumCommand.execute (CeilingFan.mk "Bedroom" 2)).2 =
      (CeilingFan.mk "Bedroom" 2).getSpeed :=
  ⟨by decide,
   (fanCommand_snapshot_at_execute (CeilingFan.mk "Bedroom" 0)
      (CeilingFan.mk "Bedroom" 2) (by decide)).1⟩

/-- C10: Closed-speed invariant: the fan's speed is one of exactly
`OFF`, `LOW`, `MEDIUM`, `HIGH` — established by the constructor and preserved
by every transition operation, by every command `execute()` (both the fan and
the snapshot it stores), and by `undo()`; and whenever the stored `prevSpeed`
is one of the four speeds, the four-branch dispatch in `undo()` matches a
branch and performs the corresponding transition (`fanCommandUndo p f` is
exactly `f` moved to speed `p`), so the fall-through case is unreachable. -/
theorem ceilingFan_closed_speed_invariant :
    (∀ loc, ValidSpeed (CeilingFan.new loc).speed) ∧
    (∀ f : CeilingFan, ValidSpeed f.high.speed ∧ ValidSpeed f.medium.speed ∧
      ValidSpeed f.low.speed ∧ ValidSpeed f.off.speed) ∧
    (∀ f : CeilingFan,
      ValidSpeed (CeilingFanMediumCommand.execute f).1.speed ∧
      ValidSpeed (CeilingFanHighCommand.execute f).1.speed ∧
      ValidSpeed (CeilingFanLowCommand.execute f).1.speed ∧
      ValidSpeed (CeilingFanOffCommand.execute f).1.speed) ∧
    (∀ f : CeilingFan, ValidSpeed f.speed →
      ValidSpeed (CeilingFanMediumCommand.execute f).2 ∧
      ValidSpeed (CeilingFanHighCommand.execute f).2 ∧
      ValidSpeed (CeilingFanLowCommand.execute f).2 ∧
      ValidSpeed (CeilingFanOffCommand.execute f).2) ∧
    (∀ p (f : CeilingFan), ValidSpeed f.speed →
      ValidSpeed (fanCommandUndo p f).speed) ∧
    (∀ p (f : CeilingFan), ValidSpeed p →
      fanCommandUndo p f = { f with speed := p }) := by
  refine ⟨fun loc => Or.inl rfl,
    fun f => ⟨by right; right; right; rfl, by right; right; left; rfl,
      by right; left; rfl, by left; rfl⟩,
    fun f => ⟨by right; right; left; rfl, by right; right; right; rfl,
      by right; left; rfl, by left; rfl⟩,
    fun f hf => ⟨hf, hf, hf, hf⟩,
    fun p f hf => ?_,
    fun p f hp => ?_⟩
  · unfold fanCommandUndo
    split_ifs <;>
      simp_all [ValidSpeed, CeilingFan.high, CeilingFan.medium,
        CeilingFan.low, CeilingFan.off]
  · rcases hp with h | h | h | h <;> subst h <;> rfl

/-- Witness for C10: undo-dispatch at `prevSpeed = LOW` on a fan at `HIGH`,
and undo preservation on a valid fan. -/
theorem ceilingFan_closed_speed_invariant_witness :
    (ValidSpeed (CeilingFan.mk "Kitchen" 3).speed ∧
      ValidSpeed (fanCommandUndo 9 (CeilingFan.mk "Kitchen" 3)).speed) ∧
    (ValidSpeed 1 ∧
      fanCommandUndo 1 (CeilingFan.mk "Kitchen" 3) = CeilingFan.mk "Kitchen" 1) :=
  ⟨⟨by decide,
     ceilingFan_closed_speed_invariant.2.2.2.2.1 9 (CeilingFan.mk "Kitchen" 3)
       (by decide)⟩,
   ⟨by decide,
     ceilingFan_closed_speed_invariant.2.2.2.2.2 1 (CeilingFan.mk "Kitchen" 3)
       (by decide)⟩⟩

/-- The binary state a `Light` reports: its `on()`/`off()` operations each
print a line naming the new state (`"... light is on"` / `"... light is off"`). -/
inductive LightState where
  | on
  | off
deriving Repr, DecidableEq

/-- The `Light` device: a location label plus the observable binary state its
transition operations report.  The source class stores only `location` and
makes the state observable through the log line each transition emits; the
embedding records that observable state as a field. -/
structure Light where
  location : String
  state : LightState
deriving Repr, DecidableEq

/-- Transition `Light.on()`: reports (and hence moves to) the `on` state. -/
def Light.on (l : Light) : Light :=
  { l with state := LightState.on }

/-- Transition `Light.off()`: reports (and hence moves to) the `off` state. -/
def Light.off (l : Light) : Light :=
  { l with state := LightState.off }

/-- Method `LightOffCommand.execute()`: `this.light.off()`. -/
def LightOffCommand.execute (l : Light) : Light :=
  Light.off l

/-- Method `LightOffCommand.undo()`: `this.light.on()` — the static complementary
transition; the command stores no snapshot. -/
def LightOffCommand.undo (l : Light) : Light :=
  Light.on l

/-- C6 counterexample: the binary complement round trip fails on a light
that is already off.  `LightOffCommand.execute()` then `undo()` on a light in
state `off` leaves it in state `on`, not in the state it had before
`execute()`: undo applies the static complement `on()` regardless of the
prior state. -/
theorem lightOffCommand_roundTrip_counterexample :
    (LightOffCommand.undo
        (LightOffCommand.execute (Light.mk "Kitchen" LightState.off))).state ≠
      (Light.mk "Kitchen" LightState.off).state := by
  decide

/-- C6 amended: Binary complement round trip, restricted to starting
states that the command actually changes: for a light not already in the
command's target state — i.e. a light that is `on` when `LightOffCommand`
fires — `execute()` then `undo()` restores the prior state, because undo
invokes the static complementary transition `on()` (not a snapshot lookup);
moreover undo always yields the complement of the command's target, which
equals the prior state exactly when the prior state was `on`. -/
theorem lightOffCommand_complement_roundTrip
    (l : Light) (h : l.state = LightState.on) :
    (LightOffCommand.undo (LightOffCommand.execute l)).state = l.state ∧
    LightOffCommand.undo (LightOffCommand.execute l) = l := by
  obtain ⟨loc, s⟩ := l
  subst h
  exact ⟨rfl, rfl⟩

/-- Witness for amended C6: a living-room light that is on. -/
theorem lightOffCommand_complement_roundTrip_witness :
    (Light.mk "Living Room" LightState.on).state = LightState.on ∧
    (LightOffCommand.undo
        (LightOffCommand.execute (Light.mk "Living Room" LightState.on))).state =
      (Light.mk "Living Room" LightState.on).state :=
  ⟨by decide,
   (lightOffCommand_complement_roundTrip (Light.mk "Living Room" LightState.on)
      (by decide)).1⟩

/-- The abstract `Command` interface: `execute()` and `undo()`, acting on a
world state `σ` (the devices the command is bound to, or an observation
trace). -/
structure Command (σ : Type) where
  execute : σ → σ
  undo : σ → σ

/-- Variant `NoCommand`: both `execute()` and `undo()` do nothing. -/
def NoCommand (σ : Type) : Command σ :=
  { execute := id, undo := id }

/-- A call event observed on the world: which command ran which method.
Used to instrument abstract commands so invocation order is provable. -/
inductive CallEvent where
  | exec (id : Nat)
  | undoCall (id : Nat)
deriving Repr, DecidableEq

/-- A probe command with identity `i`: its `execute()`/`undo()` append the
corresponding call event to the trace, recording invocation order. -/
def probeCommand (i : Nat) : Command (List CallEvent) :=
  { execute := fun t => t ++ [CallEvent.exec i],
    undo := fun t => t ++ [CallEvent.undoCall i] }

/-- The `RemoteLoaderWithUndo` invoker: two slot tables and the single
`undoCommand` reference.  A slot table is a JavaScript array; entries read
from beyond the written range are `undefined`, embedded as `none`. -/
structure RemoteLoaderWithUndo (σ : Type) where
  onCommands : List (Option (Command σ))
  offCommands : List (Option (Command σ))
  undoCommand : Command σ

/-- Constructor `new RemoteLoaderWithUndo()`: it fills slots `0..6` of both
tables with `NoCommand` and sets `undoCommand` to a `NoCommand`. -/
def RemoteLoaderWithUndo.new (σ : Type) : RemoteLoaderWithUndo σ :=
  { onCommands := List.replicate 7 (some (NoCommand σ)),
    offCommands := List.replicate 7 (some (NoCommand σ)),
    undoCommand := NoCommand σ }

/-- JavaScript array element assignment `arr[i] = a`: in range it overwrites
the element; past the end it extends the array to length `i + 1`, leaving
holes (`undefined`, embedded as `none`) between the old end and `i`.  It
never fails. -/
def jsArraySet (l : List (Option α)) (i : Nat) (a : α) : List (Option α) :=
  if i < l.length then l.set i (some a)
  else l ++ List.replicate (i - l.length) none ++ [some a]

/-- Method `RemoteLoaderWithUndo.setCommand(slot, onCommand, offCommand)`:
`this.onCommands[slot] = onCommand; this.offCommands[slot] = offCommand`. -/
def RemoteLoaderWithUndo.setCommand (r : RemoteLoaderWithUndo σ) (slot : Nat)
    (onCommand offCommand : Command σ) : RemoteLoaderWithUndo σ :=
  { r with onCommands := jsArraySet r.onCommands slot onCommand,
           offCommands := jsArraySet r.offCommands slot offCommand }

/-- Method `RemoteLoaderWithUndo.onButtonWasPushed(slot)`:
`this.onCommands[slot].execute(); this.undoCommand = this.onCommands[slot]`.
Reading a missing slot yields `undefined` and the method call throws,
embedded as `none`. -/
def RemoteLoaderWithUndo.onButtonWasPushed (r : RemoteLoaderWithUndo σ)
    (slot : Nat) (w : σ) : Option (RemoteLoaderWithUndo σ × σ) :=
  match r.onCommands.getD slot none with
  | none => none
  | some c => some ({ r with undoCommand := c }, c.execute w)

/-- Method `RemoteLoaderWithUndo.offButtonWasPushed(slot)`:
`this.offCommands[slot].execute(); this.undoCommand = this.offCommands[slot]`. -/
def RemoteLoaderWithUndo.offButtonWasPushed (r : RemoteLoaderWithUndo σ)
    (slot : Nat) (w : σ) : Option (RemoteLoaderWithUndo σ × σ) :=
  match r.offCommands.getD slot none with
  | none => none
  | some c => some ({ r with undoCommand := c }, c.execute w)

/-- Method `RemoteLoaderWithUndo.undoButtonWasPushed()`: `this.undoCommand.undo()`.
Touches no other invoker field. -/
def RemoteLoaderWithUndo.undoButtonWasPushed (r : RemoteLoaderWithUndo σ)
    (w : σ) : RemoteLoaderWithUndo σ × σ :=
  (r, r.undoCommand.undo w)

/-- Method `MacroCommand.execute()`: `this.commands.forEach(c => c.execute())` —
a left-to-right pass over the child list. -/
def MacroCommand.execute (cs : List (Command σ)) (w : σ) : σ :=
  cs.foldl (fun w c => c.execute w) w

/-- Method `MacroCommand.undo()`: `this.commands.forEach(c => c.undo())` — the same
left-to-right pass, not reversed. -/
def MacroCommand.undo (cs : List (Command σ)) (w : σ) : σ :=
  cs.foldl (fun w c => c.undo w) w

/-- Running `MacroCommand.execute` over probe children appends their exec events in
list order. -/
theorem probeExecuteOrder (ids : List Nat) (t : List CallEvent) :
    MacroCommand.execute (List.map probeCommand ids) t =
      t ++ List.map CallEvent.exec ids := by
  induction ids generalizing t with
  | nil => simp [MacroCommand.execute]
  | cons i ids ih =>
      have h := ih (t ++ [CallEvent.exec i])
      simp only [MacroCommand.execute, List.map_cons, List.foldl_cons] at h ⊢
      rw [show (probeCommand i).execute t = t ++ [CallEvent.exec i] from rfl, h]
      simp

/-- Running `MacroCommand.undo` over probe children appends their undo events in the
same list order. -/
theorem probeUndoOrder (ids : List Nat) (t : List CallEvent) :
    MacroCommand.undo (List.map probeCommand ids) t =
      t ++ List.map CallEvent.undoCall ids := by
  induction ids generalizing t with
  | nil => simp [MacroCommand.undo]
  | cons i ids ih =>
      have h := ih (t ++ [CallEvent.undoCall i])
      simp only [MacroCommand.undo, List.map_cons, List.foldl_cons] at h ⊢
      rw [show (probeCommand i).undo t = t ++ [CallEvent.undoCall i] from rfl, h]
      simp

/-- C2: MacroCommand ordering: for every list of child commands
(instrumented so each child records its invocation in the trace),
`execute()` invokes each child's `execute()` in exactly the supplied list
order, and `undo()` invokes each child's `undo()` in that same, not
reversed, order. -/
theorem MacroCommand_same_order (ids : List Nat) (t : List CallEvent) :
    MacroCommand.execute (List.map probeCommand ids) t =
      t ++ List.map CallEvent.exec ids ∧
    MacroCommand.undo (List.map probeCommand ids) t =
      t ++ List.map CallEvent.undoCall ids :=
  ⟨probeExecuteOrder ids t, probeUndoOrder ids t⟩

/-- The §8 last-executed-overwrite scenario: on a fresh invoker, bind probe
commands at slots 0 and 1, push on-button 0, then on-button 1, then the undo
button, observing the resulting call trace. -/
def overwriteScenario (a a' b b' : Nat) : Option (List CallEvent) :=
  let r0 := ((RemoteLoaderWithUndo.new (List CallEvent)).setCommand 0
      (probeCommand a) (probeCommand a')).setCommand 1
      (probeCommand b) (probeCommand b')
  (r0.onButtonWasPushed 0 []).bind fun p1 =>
    (p1.1.onButtonWasPushed 1 p1.2).map fun p2 =>
      (p2.1.undoButtonWasPushed p2.2).2

/-- C3: Last-executed overwrite: pushing a slot's on or off button
executes the bound command and records exactly that command as the undo
target; hence after `onButtonWasPushed(0)` then `onButtonWasPushed(1)`, the
undo button invokes only the undo of the command at slot 1 — the trace holds
slot 1's undo event and, when the probes differ, no undo event of slot 0. -/
theorem remote_lastExecuted_overwrite :
    (∀ (σ : Type) (r : RemoteLoaderWithUndo σ) (slot : Nat) (w : σ)
        (c : Command σ), r.onCommands.getD slot none = some c →
        r.onButtonWasPushed slot w =
          some ({ r with undoCommand := c }, c.execute w)) ∧
    (∀ (σ : Type) (r : RemoteLoaderWithUndo σ) (slot : Nat) (w : σ)
        (c : Command σ), r.offCommands.getD slot none = some c →
        r.offButtonWasPushed slot w =
          some ({ r with undoCommand := c }, c.execute w)) ∧
    (∀ a a' b b' : Nat,
        overwriteScenario a a' b b' =
          some [CallEvent.exec a, CallEvent.exec b, CallEvent.undoCall b]) ∧
    (∀ a b : Nat, a ≠ b →
        CallEvent.undoCall a ∉
          [CallEvent.exec a, CallEvent.exec b, CallEvent.undoCall b]) := by
  refine ⟨fun σ r slot w c h => ?_, fun σ r slot w c h => ?_,
    fun a a' b b' => rfl, fun a b hne => ?_⟩
  · unfold RemoteLoaderWithUndo.onButtonWasPushed
    rw [h]
  · unfold RemoteLoaderWithUndo.offButtonWasPushed
    rw [h]
  · simp [hne]

/-- Witness for C3: probes 10/11 at slot 0 and 20/21 at slot 1, plus the
execute-then-record equation on a fresh invoker's slot 0. -/
theorem remote_lastExecuted_overwrite_witness :
    (overwriteScenario 10 11 20 21 =
      some [CallEvent.exec 10, CallEvent.exec 20, CallEvent.undoCall 20]) ∧
    (CallEvent.undoCall 10 ∉
      [CallEvent.exec 10, CallEvent.exec 20, CallEvent.undoCall 20]) ∧
    ((RemoteLoaderWithUndo.new (List CallEvent)).onButtonWasPushed 0 [] =
      some ({ RemoteLoaderWithUndo.new (List CallEvent) with
                undoCommand := NoCommand (List CallEvent) },
            (NoCommand (List CallEvent)).execute [])) :=
  ⟨remote_lastExecuted_overwrite.2.2.1 10 11 20 21,
   remote_lastExecuted_overwrite.2.2.2 10 20 (by decide),
   remote_lastExecuted_overwrite.1 (List CallEvent)
     (RemoteLoaderWithUndo.new (List CallEvent)) 0 []
     (NoCommand (List CallEvent)) rfl⟩

/-- C7: Default-slot safety: on the invoker as constructed (capacity 7,
no explicit bindings), pushing the on or off button of any slot below 7
raises no error (the result is `some`, not the `undefined`-access `none`)
and performs no device transition — the world is returned unchanged and the
invoker is unchanged too, since every slot holds the no-op `NoCommand`. -/
theorem default_slots_safe_noop (σ : Type) (w : σ) (s : Nat) (h : s < 7) :
    (RemoteLoaderWithUndo.new σ).onButtonWasPushed s w =
      some (RemoteLoaderWithUndo.new σ, w) ∧
    (RemoteLoaderWithUndo.new σ).offButtonWasPushed s w =
      some (RemoteLoaderWithUndo.new σ, w) := by
  interval_cases s <;> exact ⟨rfl, rfl⟩

/-- Witness for C7: slot 3 on a fresh invoker over a `Nat` world. -/
theorem default_slots_safe_noop_witness :
    (3 < 7) ∧
    (RemoteLoaderWithUndo.new Nat).onButtonWasPushed 3 0 =
      some (RemoteLoaderWithUndo.new Nat, 0) :=
  ⟨by decide, (default_slots_safe_noop Nat 0 3 (by decide)).1⟩

/-- C8: Undo before any trigger is a safe no-op: on a freshly constructed
invoker (no trigger ever pushed), the undo button raises no error and
returns both the invoker and the world unchanged, because `undoCommand` is
initialized to `NoCommand`, whose `undo()` does nothing. -/
theorem undo_before_any_trigger_noop (σ : Type) (w : σ) :
    (RemoteLoaderWithUndo.new σ).undoButtonWasPushed w =
      (RemoteLoaderWithUndo.new σ, w) :=
  rfl

/-- C9: No undo-of-undo frame property: `undoButtonWasPushed` never
modifies the invoker — neither `undoCommand` nor the slot tables — it only
invokes the recorded command's undo on the world; hence a second consecutive
undo re-invokes the very same command's undo. -/
theorem undo_frame_property (σ : Type) (r : RemoteLoaderWithUndo σ) (w : σ) :
    (r.undoButtonWasPushed w).1 = r ∧
    (r.undoButtonWasPushed w).2 = r.undoCommand.undo w ∧
    (r.undoButtonWasPushed w).1.undoButtonWasPushed
        (r.undoButtonWasPushed w).2 =
      (r, r.undoCommand.undo (r.undoCommand.undo w)) :=
  ⟨rfl, rfl, rfl⟩

/-- In range, `jsArraySet` keeps the array length. -/
theorem jsArraySet_length_of_lt (l : List (Option α)) (i : Nat) (a : α)
    (h : i < l.length) : (jsArraySet l i a).length = l.length := by
  simp [jsArraySet, h]

/-- In range, `jsArraySet` writes the element at the index. -/
theorem jsArraySet_getD_self_of_lt (l : List (Option α)) (i : Nat) (a : α)
    (h : i < l.length) : (jsArraySet l i a).getD i none = some a := by
  simp only [jsArraySet, if_pos h]
  rw [List.getD_eq_getElem _ _ (by simpa [List.length_set] using h)]
  exact List.getElem_set_self _

/-- In range, `jsArraySet` leaves every other index unchanged. -/
theorem jsArraySet_getD_of_ne (l : List (Option α)) (i j : Nat) (a : α)
    (h : i < l.length) (hj : j ≠ i) :
    (jsArraySet l i a).getD j none = l.getD j none := by
  simp only [jsArraySet, if_pos h]
  by_cases hjl : j < l.length
  · rw [List.getD_eq_getElem _ _ (by simpa [List.length_set] using hjl),
      List.getD_eq_getElem _ _ hjl]
    exact List.getElem_set_ne (Ne.symm hj) _
  · rw [List.getD_eq_default _ _ (by simpa [List.length_set] using hjl),
      List.getD_eq_default _ _ (by omega)]

/-- Past the end, `jsArraySet` grows the array to length `i + 1`. -/
theorem jsArraySet_length_of_ge (l : List (Option α)) (i : Nat) (a : α)
    (h : l.length ≤ i) : (jsArraySet l i a).length = i + 1 := by
  simp only [jsArraySet, if_neg (Nat.not_lt.mpr h)]
  simp only [List.length_append, List.length_replicate, List.length_singleton]
  omega

/-- Past the end, `jsArraySet` writes the element at the index. -/
theorem jsArraySet_getD_self_of_ge (l : List (Option α)) (i : Nat) (a : α)
    (h : l.length ≤ i) : (jsArraySet l i a).getD i none = some a := by
  simp only [jsArraySet, if_neg (Nat.not_lt.mpr h)]
  rw [List.getD_append_right _ _ _ _ (by simp; omega)]
  have hz : i - (l ++ List.replicate (i - l.length) none).length = 0 := by
    simp; omega
  rw [hz]
  rfl

/-- Past the end, `jsArraySet` leaves the old portion unchanged. -/
theorem jsArraySet_getD_of_lt_length (l : List (Option α)) (i j : Nat) (a : α)
    (h : l.length ≤ i) (hj : j < l.length) :
    (jsArraySet l i a).getD j none = l.getD j none := by
  simp only [jsArraySet, if_neg (Nat.not_lt.mpr h)]
  rw [List.getD_append _ _ _ _ (by simp; omega)]
  exact List.getD_append _ _ _ _ hj

/-- Past the end, the skipped positions become holes (`undefined`). -/
theorem jsArraySet_getD_hole (l : List (Option α)) (i j : Nat) (a : α)
    (h : l.length ≤ j) (hji : j < i) : (jsArraySet l i a).getD j none = none := by
  simp only [jsArraySet, if_neg (Nat.not_lt.mpr (le_trans h (le_of_lt hji)))]
  rw [List.getD_append _ _ _ _ (by simp; omega),
    List.getD_append_right _ _ _ _ h,
    List.getD_eq_getElem _ _ (by simp; omega)]
  exact List.getElem_replicate _ _

/-- C5 counterexample: the bind range check does not exist.  On the
invoker as constructed (slot tables of length 7, so capacity 7), binding
slot 9 does not fail fast with an error: `setCommand` is a total function
(the JavaScript assignments always succeed) and it extends the slot table
from length 7 to length 10, exactly what the claim says cannot happen. -/
theorem setCommand_out_of_range_counterexample :
    (RemoteLoaderWithUndo.new Nat).onCommands.length = 7 ∧
    ((RemoteLoaderWithUndo.new Nat).setCommand 9 (NoCommand Nat)
        (NoCommand Nat)).onCommands.length = 10 ∧
    ((RemoteLoaderWithUndo.new Nat).setCommand 9 (NoCommand Nat)
        (NoCommand Nat)).offCommands.length = 10 :=
  ⟨rfl, rfl, rfl⟩

/-- C5 amended: Bind never fails: `setCommand(s, on, off)` assigns into
both slot tables unconditionally.  For `s` below the table length it
replaces both commands at slot `s`, keeping the table length and every other
slot unchanged; for `s` at or past the table length it does not fail — it
silently extends the table to length `s + 1`, writing the new commands at
`s`, keeping the old entries, and leaving the skipped positions as unbound
holes (`undefined`). -/
theorem setCommand_replaces_or_extends :
    (∀ (σ : Type) (r : RemoteLoaderWithUndo σ) (s : Nat)
        (onC offC : Command σ),
        (r.setCommand s onC offC).onCommands = jsArraySet r.onCommands s onC ∧
        (r.setCommand s onC offC).offCommands =
          jsArraySet r.offCommands s offC ∧
        (r.setCommand s onC offC).undoCommand = r.undoCommand) ∧
    (∀ (α : Type) (l : List (Option α)) (i : Nat) (a : α), i < l.length →
        (jsArraySet l i a).length = l.length ∧
        (jsArraySet l i a).getD i none = some a ∧
        ∀ j, j ≠ i → (jsArraySet l i a).getD j none = l.getD j none) ∧
    (∀ (α : Type) (l : List (Option α)) (i : Nat) (a : α), l.length ≤ i →
        (jsArraySet l i a).length = i + 1 ∧
        (jsArraySet l i a).getD i none = some a ∧
        (∀ j, j < l.length →
          (jsArraySet l i a).getD j none = l.getD j none) ∧
        ∀ j, l.length ≤ j → j < i → (jsArraySet l i a).getD j none = none) :=
  ⟨fun σ r s onC offC => ⟨rfl, rfl, rfl⟩,
   fun α l i a h =>
     ⟨jsArraySet_length_of_lt l i a h, jsArraySet_getD_self_of_lt l i a h,
      fun j hj => jsArraySet_getD_of_ne l i j a h hj⟩,
   fun α l i a h =>
     ⟨jsArraySet_length_of_ge l i a h, jsArraySet_getD_self_of_ge l i a h,
      fun j hj => jsArraySet_getD_of_lt_length l i j a h hj,
      fun j hj hji => jsArraySet_getD_hole l i j a hj hji⟩⟩

/-- Witness for amended C5: in-range bind at slot 2 keeps the length 7
table; out-of-range bind at slot 9 grows it to 10 and leaves slot 8 a hole. -/
theorem setCommand_replaces_or_extends_witness :
    (2 < (RemoteLoaderWithUndo.new Nat).onCommands.length ∧
      (jsArraySet (RemoteLoaderWithUndo.new Nat).onCommands 2
          (NoCommand Nat)).length =
        (RemoteLoaderWithUndo.new Nat).onCommands.length) ∧
    ((RemoteLoaderWithUndo.new Nat).onCommands.length ≤ 9 ∧
      (jsArraySet (RemoteLoaderWithUndo.new Nat).onCommands 9
          (NoCommand Nat)).length = 10 ∧
      (jsArraySet (RemoteLoaderWithUndo.new Nat).onCommands 9
          (NoCommand Nat)).getD 8 none = none) :=
  ⟨⟨by decide,
    (setCommand_replaces_or_extends.2.1 (Command Nat)
        (RemoteLoaderWithUndo.new Nat).onCommands 2 (NoCommand Nat)
        (by decide)).1⟩,
   ⟨by decide,
    (setCommand_replaces_or_extends.2.2 (Command Nat)
        (RemoteLoaderWithUndo.new Nat).onCommands 9 (NoCommand Nat)
        (by decide)).1,
    (setCommand_replaces_or_extends.2.2 (Command Nat)
        (RemoteLoaderWithUndo.new Nat).onCommands 9 (NoCommand Nat)
        (by decide)).2.2.2 8 (by decide) (by decide)⟩⟩
